import Mathlib

/-!
Shallow embedding of the MCP DevOps Plan adapter (src/lib/server.js):
the session-cookie cache, the two-phase query executors, the
Edit/Commit mutation executors for Sprint, Release and WorkItem, and
the state-change flow, together with the field-descriptor builders
used in Commit payloads.  HTTP traffic is modelled as an explicit
event trace produced against an environment of remote responses.
-/

namespace Plan

/-! ### String helpers mirroring the JavaScript primitives used by the code -/

/-- JavaScript `String.prototype.trim`: drop whitespace at both ends. -/
def jsTrim (s : String) : String :=
  String.mk (((s.data.dropWhile Char.isWhitespace).reverse.dropWhile Char.isWhitespace).reverse)

/-- Accumulator-style splitter for `split(',')`. -/
def splitCommaAux : List Char → List Char → List (List Char)
  | [], acc => [acc.reverse]
  | c :: cs, acc =>
    if c = ',' then acc.reverse :: splitCommaAux cs [] else splitCommaAux cs (c :: acc)

/-- JavaScript `value.split(',')`. -/
def jsSplitComma (s : String) : List String :=
  (splitCommaAux s.data []).map String.mk

/-- The `value.split(',').map(v => v.trim())` idiom of the Release executor. -/
def splitTrim (s : String) : List String :=
  (jsSplitComma s).map jsTrim

/-- JavaScript `Array.prototype.join(sep)`. -/
def joinSep (sep : String) : List String → String
  | [] => ""
  | [x] => x
  | x :: y :: xs => x ++ sep ++ joinSep sep (y :: xs)

/-- `JSON.stringify` of an array of strings (inputs free of characters needing escapes). -/
def jsonStrList (xs : List String) : String :=
  "[" ++ joinSep "," (xs.map (fun s => "\"" ++ s ++ "\"")) ++ "]"

/-- A single-quote character, used in rendered messages. -/
def sq : String := String.mk [Char.ofNat 39]

/-- Boolean prefix test on character lists. -/
def chPre : List Char → List Char → Bool
  | [], _ => true
  | _ :: _, [] => false
  | a :: as, b :: bs => a = b && chPre as bs

/-- Boolean infix test on character lists. -/
def chInf (pat : List Char) : List Char → Bool
  | [] => pat.isEmpty
  | b :: bs => chPre pat (b :: bs) || chInf pat bs

/-- JavaScript `haystack.includes(pattern)`. -/
def containsB (hay pat : String) : Bool := chInf pat.data hay.data

/-- JavaScript truthiness of an optional string (`undefined` and `""` are falsy). -/
def truthyOpt : Option String → Bool
  | none => false
  | some s => s ≠ ""

/-- JavaScript `response.ok`: status in the 200 range. -/
def httpOk (s : Nat) : Bool := 200 ≤ s && s < 300

/-! ### Field descriptors -/

/-- A tool-input field triple: name, value and optional declared type. -/
structure Field where
  name : String
  value : String
  type : Option String
deriving Repr, DecidableEq

/-- Minimal field shape used in Edit-phase payloads. -/
structure MinField where
  name : String
  value : Option String := none
  valueAsList : Option (List String) := none
deriving Repr, DecidableEq

/-- Full-metadata field shape used in Commit-phase payloads. -/
structure FieldDescriptor where
  name : String
  value : String
  valueAsList : List String
  type : String
  valueStatus : String
  validationStatus : String
  requiredness : String
  requirednessForUser : String
  messageText : String
  maxLength : Nat
deriving Repr, DecidableEq

/-- Commit-phase descriptor built by `create_or_update_release` (server.js lines 772-795). -/
def buildReleaseCommitField (f : Field) : FieldDescriptor :=
  { name := f.name
    valueStatus := "HAS_VALUE"
    validationStatus := "_KNOWN_VALID"
    requiredness := if f.name = "Name" then "MANDATORY" else "OPTIONAL"
    requirednessForUser := if f.name = "Name" then "MANDATORY" else "OPTIONAL"
    type := f.type.getD "SHORT_STRING"
    messageText := ""
    maxLength :=
      if f.type = some "MULTILINE_STRING" ∨ f.type = some "REFERENCE_LIST" then 0 else 254
    value :=
      if f.type = some "REFERENCE_LIST" then joinSep "\n" (splitTrim f.value) else f.value
    valueAsList :=
      if f.type = some "REFERENCE_LIST" then splitTrim f.value else [f.value] }

/-- Commit-phase descriptor built by `update_work_item` (server.js lines 1219-1230). -/
def buildWorkItemCommitField (f : Field) : FieldDescriptor :=
  { name := f.name
    value := f.value
    valueStatus := if f.value ≠ "" then "HAS_VALUE" else "HAS_NO_VALUE"
    validationStatus := "_KNOWN_VALID"
    requiredness := "OPTIONAL"
    requirednessForUser := "OPTIONAL"
    type := f.type.getD "SHORT_STRING"
    valueAsList := if f.value ≠ "" then [f.value] else []
    messageText := ""
    maxLength := if f.type = some "SHORT_STRING" then 254 else 0 }

/-- Name descriptor built by `create_or_update_sprint` (server.js lines 601-613). -/
def sprintNameField (name : String) : FieldDescriptor :=
  { name := "Name"
    value := name
    valueStatus := "HAS_VALUE"
    validationStatus := "_KNOWN_VALID"
    requiredness := "MANDATORY"
    requirednessForUser := "MANDATORY"
    type := "SHORT_STRING"
    valueAsList := [name]
    messageText := ""
    maxLength := 254 }

/-- Date descriptor built by `create_or_update_sprint` (server.js lines 616-643). -/
def sprintDateField (fieldName date : String) : FieldDescriptor :=
  { name := fieldName
    value := date ++ " 00:00:00"
    valueStatus := "HAS_VALUE"
    validationStatus := "_KNOWN_VALID"
    requiredness := "MANDATORY"
    requirednessForUser := "MANDATORY"
    type := "DATE_TIME"
    valueAsList := [date ++ " 00:00:00"]
    messageText := ""
    maxLength := 0 }

/-- Commit field list assembled by `create_or_update_sprint` (server.js lines 599-644). -/
def sprintCommitFields (name startDate endDate : Option String) : List FieldDescriptor :=
  (if truthyOpt name then [sprintNameField (name.getD "")] else []) ++
  (if truthyOpt startDate then [sprintDateField "StartDate" (startDate.getD "")] else []) ++
  (if truthyOpt endDate then [sprintDateField "EndDate" (endDate.getD "")] else [])

/-- Edit field list assembled by `create_or_update_sprint` (server.js lines 567-576). -/
def sprintEditFields (name startDate endDate : Option String) : List MinField :=
  (if truthyOpt name then [{ name := "Name", value := some (name.getD "") }] else []) ++
  (if truthyOpt startDate then [{ name := "StartDate", value := some (startDate.getD "") }] else []) ++
  (if truthyOpt endDate then [{ name := "EndDate", value := some (endDate.getD "") }] else [])

/-- Edit-phase minimal field built per field by `create_or_update_release` (lines 742-748). -/
def releaseMinField (f : Field) : MinField :=
  if f.type = some "REFERENCE_LIST" then
    { name := f.name, valueAsList := some (splitTrim f.value) }
  else
    { name := f.name, value := some f.value }

/-! ### HTTP event traces, tool results and the session cache -/

/-- One observable step of a tool invocation: an HTTP request or the fixed delay. -/
inductive Ev where
  | bootstrap
  | queryPost
  | pageGet
  | getRecord
  | actionPatch (actionName : String)
  | createPost (fields : List MinField)
  | editPatch (fields : List MinField)
  | commitPatch (fields : List FieldDescriptor)
  | delayMs (n : Nat)
deriving Repr, DecidableEq

/-- True for events that are HTTP requests (everything except the delay). -/
def isHttpEv : Ev → Bool
  | .delayMs _ => false
  | _ => true

/-- True for the empty-field create POST events. -/
def isCreateEv : Ev → Bool
  | .createPost _ => true
  | _ => false

/-- True for the bootstrap (cookie) call events. -/
def isBootEv : Ev → Bool
  | .bootstrap => true
  | _ => false

/-- Number of bootstrap (cookie) calls in a trace. -/
def bootstrapCount (l : List Ev) : Nat := l.countP isBootEv

/-- Number of create POSTs in a trace. -/
def createCount (l : List Ev) : Nat := l.countP isCreateEv

/-- Value a tool handler hands back to the MCP layer. -/
inductive ToolResult where
  | content (text : String)
  | errorObj (msg : String)
  | noReturn
deriving Repr, DecidableEq

/-- Session-cookie cache logic shared by every handler (server.js lines 62-89 and
the per-handler `if (!globalCookies)` prologue).  The state is the global cookie
string, `""` standing for the unset/null slot; `cookieResp` is what the bootstrap
endpoint would answer (`none` for a failed request or absent header). -/
def ensureSession (st : String) (cookieResp : Option String) : String × List Ev × Bool :=
  if st = "" then
    match cookieResp with
    | some c => if c = "" then ("", [Ev.bootstrap], false) else (c, [Ev.bootstrap], true)
    | none => ("", [Ev.bootstrap], false)
  else (st, [], true)

/-! ### get_available_projects (server.js lines 168-246) -/

/-- Remote behaviour an invocation of `get_available_projects` runs against. -/
structure ProjEnv where
  cookieResp : Option String
  queryThrows : Bool
  queryThrowMsg : String
  resultSetId : Option String
  pageThrows : Bool
  pageThrowMsg : String
  rows : Option (List String)
deriving Repr, DecidableEq

/-- Catch-block rendering of `get_available_projects`. -/
def projCatch (msg : String) : ToolResult :=
  .content ("Error retrieving projects: " ++ msg)

/-- Handler for `get_available_projects`: returns the new cookie state, the HTTP
trace and the tool result. -/
def get_available_projects (st : String) (env : ProjEnv) : String × List Ev × ToolResult :=
  match ensureSession st env.cookieResp with
  | (st1, evs, false) => (st1, evs, .errorObj "Failed to retrieve cookies.")
  | (st1, evs, true) =>
    let evs := evs ++ [Ev.queryPost]
    if env.queryThrows then (st1, evs, projCatch env.queryThrowMsg)
    else if truthyOpt env.resultSetId = false then
      (st1, evs, projCatch "Failed to retrieve result set ID")
    else
      let evs := evs ++ [Ev.pageGet]
      if env.pageThrows then (st1, evs, projCatch env.pageThrowMsg)
      else
        match env.rows with
        | some names => (st1, evs, .content ("Projects retrieved: " ++ jsonStrList names))
        | none => (st1, evs, projCatch "Failed to retrieve projects")

/-! ### get_available_components (server.js lines 249-334) -/

/-- Shape of the parsed page response seen by `get_available_components`. -/
inductive PageData where
  | nullish
  | arr (n : Nat)
  | obj (rows : Option (List String))
deriving Repr, DecidableEq

/-- Remote behaviour an invocation of `get_available_components` runs against. -/
structure CompEnv where
  cookieResp : Option String
  queryThrows : Bool
  resultSetId : Option String
  pageThrows : Bool
  data : PageData
deriving Repr, DecidableEq

/-- Catch-block rendering of `get_available_components`: the success-shaped text
with the JSON string literal produced by `JSON.stringify("[]")`. -/
def compCatchText : String := "Components retrieved: \"[]\""

/-- Handler for `get_available_components`.  A rows-bearing object renders the
name list; a zero-length array answer hits the `length === 0` branch; any other
shape falls off the function (no return); a null answer throws in the
`length` access and lands in the catch block. -/
def get_available_components (st : String) (env : CompEnv) : String × List Ev × ToolResult :=
  match ensureSession st env.cookieResp with
  | (st1, evs, false) => (st1, evs, .errorObj "Failed to retrieve cookies.")
  | (st1, evs, true) =>
    let evs := evs ++ [Ev.queryPost]
    if env.queryThrows then (st1, evs, .content compCatchText)
    else if truthyOpt env.resultSetId = false then (st1, evs, .content compCatchText)
    else
      let evs := evs ++ [Ev.pageGet]
      if env.pageThrows then (st1, evs, .content compCatchText)
      else
        match env.data with
        | .obj (some names) =>
          (st1, evs, .content ("Components retrieved: " ++ jsonStrList names))
        | .obj none => (st1, evs, .noReturn)
        | .arr 0 => (st1, evs, .content compCatchText)
        | .arr (_ + 1) => (st1, evs, .noReturn)
        | .nullish => (st1, evs, .content compCatchText)

/-! ### change_work_item_state (server.js lines 1422-1539) -/

/-- Remote behaviour an invocation of `change_work_item_state` runs against. -/
structure StateEnv where
  cookieResp : Option String
  getStatus : Nat
  getBody : String
  actionStatus : Nat
  actionBody : String
  commitStatus : Nat
  commitBody : String
deriving Repr, DecidableEq

/-- Invalid-state-transition message rendered by the 400/422 catch branch. -/
def stateTransitionText (dbid targetState msg : String) : String :=
  "State transition error: The transition from current state to " ++ sq ++ targetState ++
    sq ++ " may not be valid for work item " ++ dbid ++ ". Error: " ++ msg

/-- Generic catch message of `change_work_item_state`. -/
def stateGenericText (msg : String) : String :=
  "Error changing work item state: " ++ msg

/-- Catch block of `change_work_item_state`: classify by the `status 400` /
`status 422` substring test on the thrown message. -/
def stateCatch (dbid targetState msg : String) : ToolResult :=
  if containsB msg "status 400" || containsB msg "status 422" then
    .content (stateTransitionText dbid targetState msg)
  else
    .content (stateGenericText msg)

/-- Success message of `change_work_item_state`. -/
def stateSuccessText (dbid targetState : String) : String :=
  "Work item " ++ dbid ++ " state successfully changed to " ++ sq ++ targetState ++ sq ++
    ". Both movement and commit operations completed successfully."

/-- Message thrown when the initial GET of `change_work_item_state` is not OK. -/
def getFailMsg (status : Nat) (body : String) : String :=
  "Failed to get current work item data with status " ++ Nat.repr status ++ ": " ++ body

/-- Message thrown when the action PATCH of `change_work_item_state` is not OK. -/
def moveFailMsg (status : Nat) (body : String) : String :=
  "Movement request failed with status " ++ Nat.repr status ++ ": " ++ body

/-- Message thrown when the Commit PATCH of `change_work_item_state` is not OK. -/
def commitFailMsg (status : Nat) (body : String) : String :=
  "Commit request failed with status " ++ Nat.repr status ++ ": " ++ body

/-- Handler for `change_work_item_state`: GET the current item, PATCH the named
action with an empty body, wait one second, PATCH Commit with an empty field
list. -/
def change_work_item_state (st : String) (env : StateEnv) (dbid targetState : String) :
    String × List Ev × ToolResult :=
  match ensureSession st env.cookieResp with
  | (st1, evs, false) => (st1, evs, .errorObj "Failed to retrieve cookies.")
  | (st1, evs, true) =>
    let evs := evs ++ [Ev.getRecord]
    if httpOk env.getStatus = false then
      (st1, evs, stateCatch dbid targetState (getFailMsg env.getStatus env.getBody))
    else
      let evs := evs ++ [Ev.actionPatch targetState]
      if httpOk env.actionStatus = false then
        (st1, evs, stateCatch dbid targetState (moveFailMsg env.actionStatus env.actionBody))
      else
        let evs := evs ++ [Ev.delayMs 1000] ++ [Ev.commitPatch []]
        if httpOk env.commitStatus = false then
          (st1, evs, stateCatch dbid targetState
            (commitFailMsg env.commitStatus env.commitBody))
        else
          (st1, evs, .content (stateSuccessText dbid targetState))

/-! ### create_or_update_sprint (server.js lines 509-678) -/

/-- Remote behaviour an invocation of `create_or_update_sprint` runs against. -/
structure SprintEnv where
  cookieResp : Option String
  createStatus : Nat
  createBody : String
  createDbId : String
  editStatus : Nat
  editBody : String
  commitStatus : Nat
  commitBody : String
  commitData : String
deriving Repr, DecidableEq

/-- Catch-block rendering of `create_or_update_sprint`: the verb depends on the
truthiness of the supplied dbid. -/
def sprintCatch (sprintDbid : Option String) (msg : String) : ToolResult :=
  .content ("Error " ++ (if truthyOpt sprintDbid then "updating" else "creating") ++
    " sprint: " ++ msg)

/-- Edit and Commit tail shared by the create and update modes of
`create_or_update_sprint`. -/
def sprintRest (st1 : String) (evs : List Ev) (env : SprintEnv)
    (sprintDbid name startDate endDate : Option String) (isCreating : Bool) :
    String × List Ev × ToolResult :=
  let evs := evs ++ [Ev.editPatch (sprintEditFields name startDate endDate)]
  if httpOk env.editStatus = false then
    (st1, evs, sprintCatch sprintDbid
      ("Edit operation failed: " ++ Nat.repr env.editStatus ++ " " ++ env.editBody))
  else
    let evs := evs ++ [Ev.commitPatch (sprintCommitFields name startDate endDate)]
    if httpOk env.commitStatus = false then
      (st1, evs, sprintCatch sprintDbid
        ("Commit operation failed: " ++ Nat.repr env.commitStatus ++ " " ++ env.commitBody))
    else
      (st1, evs, .content ("Sprint " ++ (if isCreating then "created" else "updated") ++
        " successfully: " ++ env.commitData))

/-- Handler for `create_or_update_sprint`. -/
def create_or_update_sprint (st : String) (env : SprintEnv)
    (sprintDbid name startDate endDate : Option String) : String × List Ev × ToolResult :=
  match ensureSession st env.cookieResp with
  | (st1, evs, false) => (st1, evs, .errorObj "Failed to retrieve cookies.")
  | (st1, evs, true) =>
    if truthyOpt sprintDbid = false then
      if truthyOpt name = false then
        (st1, evs, sprintCatch sprintDbid "Name is required when creating a new sprint")
      else
        let evs := evs ++ [Ev.createPost []]
        if httpOk env.createStatus = false then
          (st1, evs, sprintCatch sprintDbid
            ("Create operation failed: " ++ Nat.repr env.createStatus ++ " " ++ env.createBody))
        else
          sprintRest st1 evs env sprintDbid name startDate endDate true
    else
      if !(truthyOpt name) && !(truthyOpt startDate) && !(truthyOpt endDate) then
        (st1, evs, sprintCatch sprintDbid
          "At least one of name, startDate, or endDate must be provided for update")
      else
        sprintRest st1 evs env sprintDbid name startDate endDate false

/-! ### create_or_update_release (server.js lines 681-829) -/

/-- Remote behaviour an invocation of `create_or_update_release` runs against;
the Edit loop issues one PATCH per field, answered per index. -/
structure RelEnv where
  cookieResp : Option String
  createStatus : Nat
  createBody : String
  createDbId : String
  editStatusAt : Nat → Nat
  editBodyAt : Nat → String
  commitStatus : Nat
  commitBody : String
  commitData : String

/-- Catch-block rendering of `create_or_update_release`. -/
def releaseCatch (releaseDbid : Option String) (msg : String) : ToolResult :=
  .content ("Error " ++ (if truthyOpt releaseDbid then "updating" else "creating") ++
    " release: " ++ msg)

/-- Per-field Edit loop of `create_or_update_release` (lines 741-769): a failed
PATCH aborts the loop with the thrown message. -/
def releaseEditLoop (env : RelEnv) : List Field → Nat → List Ev × Option String
  | [], _ => ([], none)
  | f :: rest, i =>
    if httpOk (env.editStatusAt i) then
      let r := releaseEditLoop env rest (i + 1)
      (Ev.editPatch [releaseMinField f] :: r.1, r.2)
    else
      ([Ev.editPatch [releaseMinField f]],
        some ("Edit operation failed for " ++ f.name ++ ": " ++
          Nat.repr (env.editStatusAt i) ++ " " ++ env.editBodyAt i))

/-- Edit-loop and Commit tail shared by the create and update modes of
`create_or_update_release`. -/
def releaseRest (st1 : String) (evs : List Ev) (env : RelEnv) (releaseDbid : Option String)
    (fields : List Field) (isCreating : Bool) : String × List Ev × ToolResult :=
  let r := releaseEditLoop env fields 0
  let evs := evs ++ r.1
  match r.2 with
  | some m => (st1, evs, releaseCatch releaseDbid m)
  | none =>
    let evs := evs ++ [Ev.commitPatch (fields.map buildReleaseCommitField)]
    if httpOk env.commitStatus = false then
      (st1, evs, releaseCatch releaseDbid
        ("Commit operation failed: " ++ Nat.repr env.commitStatus ++ " " ++ env.commitBody))
    else
      (st1, evs, .content ("Release " ++ (if isCreating then "created" else "updated") ++
        " successfully: " ++ env.commitData))

/-- Handler for `create_or_update_release`. -/
def create_or_update_release (st : String) (env : RelEnv)
    (releaseDbid : Option String) (fields : List Field) : String × List Ev × ToolResult :=
  match ensureSession st env.cookieResp with
  | (st1, evs, false) => (st1, evs, .errorObj "Failed to retrieve cookies.")
  | (st1, evs, true) =>
    if truthyOpt releaseDbid = false then
      if fields.any (fun f => f.name = "Name") = false then
        (st1, evs, releaseCatch releaseDbid "Name field is required when creating a new release")
      else
        let evs := evs ++ [Ev.createPost []]
        if httpOk env.createStatus = false then
          (st1, evs, releaseCatch releaseDbid
            ("Create operation failed: " ++ Nat.repr env.createStatus ++ " " ++ env.createBody))
        else
          releaseRest st1 evs env releaseDbid fields true
    else
      if fields.length = 0 then
        (st1, evs, releaseCatch releaseDbid "At least one field must be provided for update")
      else
        releaseRest st1 evs env releaseDbid fields false

/-- True when a handler result is a single-text-content envelope. -/
def isContentResult : ToolResult → Bool
  | .content _ => true
  | _ => false

/-! ### The section 4.3 encoding table, stated from the spec for comparison -/

/-- Value column of the spec table in section 4.3. -/
def specTableValue (value : String) (ty : Option String) : String :=
  if ty = some "DATE_TIME" then value ++ " 00:00:00"
  else if ty = some "REFERENCE_LIST" then joinSep "\n" (splitTrim value)
  else value

/-- The valueAsList column of the spec table in section 4.3. -/
def specTableValueAsList (value : String) (ty : Option String) : List String :=
  if ty = some "DATE_TIME" then [value ++ " 00:00:00"]
  else if ty = some "REFERENCE_LIST" then splitTrim value
  else [value]

/-- The maxLength column of the spec table in section 4.3. -/
def specTableMaxLength (ty : Option String) : Nat :=
  if ty = some "MULTILINE_STRING" ∨ ty = some "DATE_TIME" ∨ ty = some "REFERENCE_LIST" then 0
  else 254

/-- A descriptor agrees with the spec table row for input value `v` of type `ty`. -/
def MatchesTable (d : FieldDescriptor) (v : String) (ty : Option String) : Prop :=
  d.value = specTableValue v ty ∧ d.valueAsList = specTableValueAsList v ty ∧
    d.maxLength = specTableMaxLength ty

/-- Decode rule for DATE_TIME descriptors: strip the fixed 9-character
time suffix appended by the builder. -/
def stripDateSuffix (s : String) : String :=
  String.mk (s.data.take (s.data.length - 9))

/-! ### Helper lemmas -/

theorem string_mk_data (s : String) : String.mk s.data = s := rfl

theorem string_data_append (a b : String) : (a ++ b).data = a.data ++ b.data := rfl

theorem stripDateSuffix_append (v : String) : stripDateSuffix (v ++ " 00:00:00") = v := by
  have hlen : (" 00:00:00" : String).data.length = 9 := by decide
  unfold stripDateSuffix
  rw [string_data_append, List.length_append, hlen, Nat.add_sub_cancel,
    List.take_left, string_mk_data]

theorem chPre_self_append (p r : List Char) : chPre p (p ++ r) = true := by
  induction p with
  | nil => rfl
  | cons a as ih => simp [chPre, ih]

theorem chInf_split (a p r : List Char) : chInf p (a ++ (p ++ r)) = true := by
  induction a with
  | nil =>
    cases p with
    | nil => cases r <;> simp [chInf, chPre]
    | cons c cs =>
      simp only [chInf, Bool.or_eq_true]
      exact Or.inl (chPre_self_append (c :: cs) r)
  | cons x xs ih => simp [chInf, ih]

theorem containsB_split (x p y : String) : containsB (x ++ (p ++ y)) p = true := by
  have h : (x ++ (p ++ y)).data = x.data ++ (p.data ++ y.data) := rfl
  rw [containsB, h]
  exact chInf_split _ _ _

theorem string_append_assoc (a b c : String) : a ++ b ++ c = a ++ (b ++ c) := by
  apply String.ext
  rw [string_data_append, string_data_append, string_data_append, string_data_append,
    List.append_assoc]

/-! ### Claim theorems -/

/-- C1 (counterexample): the Commit descriptor the Release executor builds for a
DATE_TIME field does not follow the section 4.3 table: its value stays the raw
date (no time suffix appended) and its maxLength is 254 rather than 0. -/
theorem c1_counterexample :
    (buildReleaseCommitField ⟨"StartDate", "2024-01-01", some "DATE_TIME"⟩).maxLength ≠
        specTableMaxLength (some "DATE_TIME") ∧
      (buildReleaseCommitField ⟨"StartDate", "2024-01-01", some "DATE_TIME"⟩).value ≠
        specTableValue "2024-01-01" (some "DATE_TIME") := by
  decide

/-- C1 (amended): the Sprint executor's descriptors follow the section 4.3 table
exactly (SHORT_STRING row for Name, DATE_TIME row for the dates); the Release
executor follows the table except that it encodes DATE_TIME like the
SHORT_STRING/default row (raw value, maxLength 254); the WorkItem executor
encodes SHORT_STRING per the table and every other or unspecified type like the
MULTILINE_STRING row (raw value, singleton list, maxLength 0), for nonempty
values.  The original value is recoverable: by stripping the fixed time suffix
for Sprint dates, and as the trimmed parts in valueAsList for REFERENCE_LIST. -/
theorem c1_theorem :
    (∀ name, MatchesTable (sprintNameField name) name (some "SHORT_STRING")) ∧
    (∀ fn date, MatchesTable (sprintDateField fn date) date (some "DATE_TIME")) ∧
    (∀ f : Field, MatchesTable (buildReleaseCommitField f) f.value
      (if f.type = some "DATE_TIME" then some "SHORT_STRING" else f.type)) ∧
    (∀ f : Field, f.value ≠ "" → MatchesTable (buildWorkItemCommitField f) f.value
      (if f.type = some "SHORT_STRING" then some "SHORT_STRING"
       else some "MULTILINE_STRING")) ∧
    (∀ fn date, stripDateSuffix ((sprintDateField fn date).value) = date) ∧
    (∀ n v, (buildReleaseCommitField ⟨n, v, some "REFERENCE_LIST"⟩).valueAsList =
      splitTrim v) := by
  refine ⟨?_, ?_, ?_, ?_, ?_, ?_⟩
  · intro name
    simp [MatchesTable, sprintNameField, specTableValue, specTableValueAsList,
      specTableMaxLength]
  · intro fn date
    simp [MatchesTable, sprintDateField, specTableValue, specTableValueAsList,
      specTableMaxLength]
  · intro f
    by_cases hd : f.type = some "DATE_TIME"
    · simp [MatchesTable, buildReleaseCommitField, specTableValue, specTableValueAsList,
        specTableMaxLength, hd]
    · by_cases hr : f.type = some "REFERENCE_LIST"
      · simp [MatchesTable, buildReleaseCommitField, specTableValue, specTableValueAsList,
          specTableMaxLength, hd, hr]
      · by_cases hm : f.type = some "MULTILINE_STRING" <;>
          simp [MatchesTable, buildReleaseCommitField, specTableValue, specTableValueAsList,
            specTableMaxLength, hd, hr, hm]
  · intro f hv
    by_cases hs : f.type = some "SHORT_STRING" <;>
      simp [MatchesTable, buildWorkItemCommitField, specTableValue, specTableValueAsList,
        specTableMaxLength, hs, hv]
  · intro fn date
    exact stripDateSuffix_append date
  · intro n v
    simp [buildReleaseCommitField]

/-- C1 (witness): the amended statement applied to a WorkItem Description field
with an unspecified type, which follows the MULTILINE_STRING row. -/
theorem c1_witness :
    MatchesTable (buildWorkItemCommitField ⟨"Description", "hello", none⟩) "hello"
      (some "MULTILINE_STRING") :=
  c1_theorem.2.2.2.1 ⟨"Description", "hello", none⟩ (by decide)

/-- C2 (counterexample): in the Sprint Commit payload the StartDate descriptor is
built with requiredness MANDATORY although the designated required field is Name,
so MANDATORY does not hold exactly for Name. -/
theorem c2_counterexample :
    ¬ ((sprintCommitFields (some "Sprint A") (some "2024-01-01") none).all
        (fun d => d.requiredness == (if d.name == "Name" then "MANDATORY" else "OPTIONAL"))
      = true) := by
  decide

/-- C2 (amended): the Release Commit descriptors mark requiredness and
requirednessForUser MANDATORY exactly when the field is Name and OPTIONAL
otherwise; the Sprint Commit descriptors mark every field (Name, StartDate,
EndDate) MANDATORY. -/
theorem c2_theorem :
    (∀ f : Field,
      (buildReleaseCommitField f).requiredness =
          (if f.name = "Name" then "MANDATORY" else "OPTIONAL") ∧
        (buildReleaseCommitField f).requirednessForUser =
          (if f.name = "Name" then "MANDATORY" else "OPTIONAL")) ∧
    (∀ name startDate endDate : Option String,
      (sprintCommitFields name startDate endDate).all
        (fun d => d.requiredness == "MANDATORY" && d.requirednessForUser == "MANDATORY")
      = true) := by
  constructor
  · intro f
    exact ⟨rfl, rfl⟩
  · intro name startDate endDate
    cases hn : truthyOpt name <;> cases hs : truthyOpt startDate <;>
      cases he : truthyOpt endDate <;>
        simp [sprintCommitFields, hn, hs, he, sprintNameField, sprintDateField]

/-- C9 (confirmed): a REFERENCE_LIST field is encoded by the Release executor
with valueAsList the comma-split whitespace-trimmed parts and value those parts
joined by a newline; on the input of the claim this gives the expected pair. -/
theorem c9_theorem :
    (∀ n v : String,
      (buildReleaseCommitField ⟨n, v, some "REFERENCE_LIST"⟩).valueAsList = splitTrim v ∧
      (buildReleaseCommitField ⟨n, v, some "REFERENCE_LIST"⟩).value =
        joinSep "\n" (splitTrim v)) ∧
    splitTrim "Sprint1, Sprint2" = ["Sprint1", "Sprint2"] ∧
    joinSep "\n" (splitTrim "Sprint1, Sprint2") = "Sprint1\nSprint2" := by
  refine ⟨fun n v => ⟨?_, ?_⟩, by decide, by decide⟩ <;> simp [buildReleaseCommitField]

/-- C7 (confirmed): when the session is available, the query succeeds and the
page response is an object whose rows array is empty, `get_available_components`
returns the successful empty-component-list text, not an error. -/
theorem c7_theorem (st : String) (env : CompEnv)
    (hsess : (ensureSession st env.cookieResp).2.2 = true)
    (hq : env.queryThrows = false)
    (hid : truthyOpt env.resultSetId = true)
    (hp : env.pageThrows = false)
    (hrows : env.data = PageData.obj (some [])) :
    (get_available_components st env).2.2 =
      ToolResult.content "Components retrieved: []" := by
  rcases h : ensureSession st env.cookieResp with ⟨st1, evs, ok⟩
  rw [h] at hsess
  cases ok
  · simp at hsess
  · simp [get_available_components, h, hq, hid, hp, hrows, jsonStrList, joinSep]

/-- C7 (witness): the theorem at a cached session with a concrete environment
whose page answer has an empty rows array. -/
theorem c7_witness :
    (get_available_components "cookie"
      ⟨some "c", false, some "rs1", false, PageData.obj (some [])⟩).2.2 =
      ToolResult.content "Components retrieved: []" :=
  c7_theorem "cookie" ⟨some "c", false, some "rs1", false, PageData.obj (some [])⟩
    (by decide) rfl (by decide) rfl rfl

/-- C10 (counterexample): a `get_available_components` invocation whose session
acquisition fails does not return the quoted success-shaped text: it returns a
bare error object with no content item. -/
theorem c10_counterexample :
    (get_available_components "" ⟨none, false, some "rs1", false,
        PageData.obj (some [])⟩).2.2 = ToolResult.errorObj "Failed to retrieve cookies." ∧
      isContentResult (get_available_components "" ⟨none, false, some "rs1", false,
        PageData.obj (some [])⟩).2.2 = false := by
  decide

/-- C10 (amended): once the session is available, every throwing step of
`get_available_components` (query throw, missing result-set id, page throw, or
a null page answer) lands in the catch block, which returns the success-shaped
text with a quoted JSON string literal; that text differs from the genuine
empty-list success text. -/
theorem c10_theorem (st : String) (env : CompEnv)
    (hsess : (ensureSession st env.cookieResp).2.2 = true)
    (hthrow : env.queryThrows = true ∨ truthyOpt env.resultSetId = false ∨
      env.pageThrows = true ∨ env.data = PageData.nullish) :
    (get_available_components st env).2.2 = ToolResult.content compCatchText ∧
      compCatchText ≠ "Components retrieved: []" := by
  rcases h : ensureSession st env.cookieResp with ⟨st1, evs, ok⟩
  rw [h] at hsess
  cases ok
  · simp at hsess
  · refine ⟨?_, by decide⟩
    cases hq : env.queryThrows
    · cases hid : truthyOpt env.resultSetId
      · simp [get_available_components, h, hq, hid]
      · cases hp : env.pageThrows
        · rcases hthrow with h1 | h1 | h1 | h1
          · rw [hq] at h1; cases h1
          · rw [hid] at h1; cases h1
          · rw [hp] at h1; cases h1
          · simp [get_available_components, h, hq, hid, hp, h1]
        · simp [get_available_components, h, hq, hid, hp]
    · simp [get_available_components, h, hq]

/-- C10 (witness): the amended statement at a concrete environment whose query
response carries no result-set id. -/
theorem c10_witness :
    (get_available_components "cookie"
      ⟨some "c", false, none, false, PageData.obj (some ["A"])⟩).2.2 =
        ToolResult.content compCatchText ∧
      compCatchText ≠ "Components retrieved: []" :=
  c10_theorem "cookie" ⟨some "c", false, none, false, PageData.obj (some ["A"])⟩
    (by decide) (Or.inr (Or.inl rfl))

theorem isContent_stateCatch (a b m : String) : isContentResult (stateCatch a b m) = true := by
  unfold stateCatch
  split <;> rfl

theorem isContent_sprintRest (st1 : String) (evs : List Ev) (env : SprintEnv)
    (d n s e : Option String) (b : Bool) :
    isContentResult (sprintRest st1 evs env d n s e b).2.2 = true := by
  unfold sprintRest
  split <;> [rfl; split <;> rfl]

theorem isContent_releaseRest (st1 : String) (evs : List Ev) (env : RelEnv)
    (d : Option String) (fs : List Field) (b : Bool) :
    isContentResult (releaseRest st1 evs env d fs b).2.2 = true := by
  unfold releaseRest
  rcases hr : releaseEditLoop env fs 0 with ⟨levs, err⟩
  simp only [hr]
  split
  · rfl
  · split <;> rfl

/-- C3 (counterexample): a `get_available_projects` invocation whose session
acquisition fails returns a bare error object, not a result whose content is a
single textual item, so not every failure is converted to a textual envelope. -/
theorem c3_counterexample :
    (get_available_projects "" ⟨none, false, "", some "rs1", false, "", some []⟩).2.2 =
        ToolResult.errorObj "Failed to retrieve cookies." ∧
      isContentResult (get_available_projects ""
        ⟨none, false, "", some "rs1", false, "", some []⟩).2.2 = false := by
  decide

/-- C3 (amended): no modelled operation raises past the tool boundary, and every
failure is rendered as a single textual content item, with two exceptions: a
session-acquisition failure returns a bare error object, and
`get_available_components` returns no value when the page answer is a rows-less
object or a nonempty array. -/
theorem c3_theorem :
    (∀ st env, isContentResult (get_available_projects st env).2.2 = true ∨
      ((get_available_projects st env).2.2 = .errorObj "Failed to retrieve cookies." ∧
        (ensureSession st env.cookieResp).2.2 = false)) ∧
    (∀ st env, isContentResult (get_available_components st env).2.2 = true ∨
      ((get_available_components st env).2.2 = .errorObj "Failed to retrieve cookies." ∧
        (ensureSession st env.cookieResp).2.2 = false) ∨
      ((get_available_components st env).2.2 = .noReturn ∧
        (env.data = PageData.obj none ∨ ∃ n, env.data = PageData.arr (n + 1)))) ∧
    (∀ st env dbid ts, isContentResult (change_work_item_state st env dbid ts).2.2 = true ∨
      ((change_work_item_state st env dbid ts).2.2 =
          .errorObj "Failed to retrieve cookies." ∧
        (ensureSession st env.cookieResp).2.2 = false)) ∧
    (∀ st env d n s e, isContentResult (create_or_update_sprint st env d n s e).2.2 = true ∨
      ((create_or_update_sprint st env d n s e).2.2 =
          .errorObj "Failed to retrieve cookies." ∧
        (ensureSession st env.cookieResp).2.2 = false)) ∧
    (∀ st env d fs, isContentResult (create_or_update_release st env d fs).2.2 = true ∨
      ((create_or_update_release st env d fs).2.2 =
          .errorObj "Failed to retrieve cookies." ∧
        (ensureSession st env.cookieResp).2.2 = false)) := by
  refine ⟨?_, ?_, ?_, ?_, ?_⟩
  · intro st env
    rcases h : ensureSession st env.cookieResp with ⟨st1, evs, ok⟩
    cases ok
    · right
      simp [get_available_projects, h]
    · left
      simp only [get_available_projects, h]
      split
      · rfl
      · split
        · rfl
        · split
          · rfl
          · split <;> rfl
  · intro st env
    rcases h : ensureSession st env.cookieResp with ⟨st1, evs, ok⟩
    cases ok
    · right; left
      simp [get_available_components, h]
    · rcases hdata : env.data with _ | n | rows
      · left
        simp only [get_available_components, h, hdata]
        split
        · rfl
        · split
          · rfl
          · split <;> rfl
      · cases n with
        | zero =>
          left
          simp only [get_available_components, h, hdata]
          split
          · rfl
          · split
            · rfl
            · split <;> rfl
        | succ m =>
          simp only [get_available_components, h, hdata]
          split
          · left; rfl
          · split
            · left; rfl
            · split
              · left; rfl
              · right; right
                refine ⟨rfl, Or.inr ⟨m, ?_⟩⟩
                simp [hdata]
      · cases rows
        · simp only [get_available_components, h, hdata]
          split
          · left; rfl
          · split
            · left; rfl
            · split
              · left; rfl
              · right; right
                refine ⟨rfl, Or.inl ?_⟩
                simp [hdata]
        · left
          simp only [get_available_components, h, hdata]
          split
          · rfl
          · split
            · rfl
            · split <;> rfl
  · intro st env dbid ts
    rcases h : ensureSession st env.cookieResp with ⟨st1, evs, ok⟩
    cases ok
    · right
      simp [change_work_item_state, h]
    · left
      simp only [change_work_item_state, h]
      split
      · exact isContent_stateCatch _ _ _
      · split
        · exact isContent_stateCatch _ _ _
        · split
          · exact isContent_stateCatch _ _ _
          · rfl
  · intro st env d n s e
    rcases h : ensureSession st env.cookieResp with ⟨st1, evs, ok⟩
    cases ok
    · right
      simp [create_or_update_sprint, h]
    · left
      simp only [create_or_update_sprint, h]
      split
      · split
        · rfl
        · split
          · rfl
          · exact isContent_sprintRest _ _ _ _ _ _ _ _
      · split
        · rfl
        · exact isContent_sprintRest _ _ _ _ _ _ _ _
  · intro st env d fs
    rcases h : ensureSession st env.cookieResp with ⟨st1, evs, ok⟩
    cases ok
    · right
      simp [create_or_update_release, h]
    · left
      simp only [create_or_update_release, h]
      split
      · split
        · rfl
        · split
          · rfl
          · exact isContent_releaseRest _ _ _ _ _ _
      · split
        · rfl
        · exact isContent_releaseRest _ _ _ _ _ _

theorem proj_fst (st : String) (env : ProjEnv) :
    (get_available_projects st env).1 = (ensureSession st env.cookieResp).1 := by
  rcases h : ensureSession st env.cookieResp with ⟨st1, evs, ok⟩
  cases ok
  · simp [get_available_projects, h]
  · simp only [get_available_projects, h]
    split
    · rfl
    · split
      · rfl
      · split
        · rfl
        · split <;> rfl

theorem proj_bootstrap (st : String) (env : ProjEnv) :
    bootstrapCount (get_available_projects st env).2.1 =
      bootstrapCount (ensureSession st env.cookieResp).2.1 := by
  rcases h : ensureSession st env.cookieResp with ⟨st1, evs, ok⟩
  cases ok
  · simp [get_available_projects, h]
  · simp only [get_available_projects, h]
    split
    · simp [bootstrapCount, List.countP_append, List.countP_cons, isBootEv]
    · split
      · simp [bootstrapCount, List.countP_append, List.countP_cons, isBootEv]
      · split
        · simp [bootstrapCount, List.countP_append, List.countP_cons, isBootEv]
        · split <;>
            simp [bootstrapCount, List.countP_append, List.countP_cons, isBootEv]

/-- C5 (confirmed): when the first invocation's session acquisition succeeds
with cookie c, two consecutive `get_available_projects` invocations perform
exactly one bootstrap HTTP call between them, and the second invocation reuses
the cached cookie unchanged. -/
theorem c5_theorem (env1 env2 : ProjEnv) (c : String) (hc : c ≠ "")
    (h1 : env1.cookieResp = some c) :
    (get_available_projects "" env1).1 = c ∧
    (get_available_projects (get_available_projects "" env1).1 env2).1 = c ∧
    bootstrapCount ((get_available_projects "" env1).2.1 ++
      (get_available_projects (get_available_projects "" env1).1 env2).2.1) = 1 := by
  have hs1 : ensureSession "" env1.cookieResp = (c, [Ev.bootstrap], true) := by
    simp [ensureSession, h1, hc]
  have hfst : (get_available_projects "" env1).1 = c := by
    rw [proj_fst, hs1]
  have hs2 : ensureSession c env2.cookieResp = (c, [], true) := by
    simp [ensureSession, hc]
  refine ⟨hfst, ?_, ?_⟩
  · rw [hfst, proj_fst, hs2]
  · rw [bootstrapCount, List.countP_append, ← bootstrapCount, ← bootstrapCount,
      proj_bootstrap, hs1, hfst, proj_bootstrap, hs2]
    rfl

/-- C5 (witness): the theorem at a concrete pair of environments whose first
bootstrap answers with a nonempty cookie. -/
theorem c5_witness :
    (get_available_projects "" ⟨some "c0", false, "", none, false, "", none⟩).1 = "c0" ∧
    (get_available_projects
      (get_available_projects "" ⟨some "c0", false, "", none, false, "", none⟩).1
      ⟨none, false, "", none, false, "", none⟩).1 = "c0" ∧
    bootstrapCount
      ((get_available_projects "" ⟨some "c0", false, "", none, false, "", none⟩).2.1 ++
        (get_available_projects
          (get_available_projects "" ⟨some "c0", false, "", none, false, "", none⟩).1
          ⟨none, false, "", none, false, "", none⟩).2.1) = 1 :=
  c5_theorem ⟨some "c0", false, "", none, false, "", none⟩
    ⟨none, false, "", none, false, "", none⟩ "c0" (by decide) rfl

/-- C4 (counterexample): a successful `change_work_item_state` invocation that
starts with an empty session cache issues four HTTP calls, the session
bootstrap preceding the GET, action PATCH and Commit PATCH. -/
theorem c4_counterexample :
    ((change_work_item_state "" ⟨some "c", 200, "", 200, "", 200, ""⟩ "42" "Resolve").2.1.countP
        isHttpEv = 4) ∧
      (change_work_item_state "" ⟨some "c", 200, "", 200, "", 200, ""⟩ "42" "Resolve").2.2 =
        ToolResult.content (stateSuccessText "42" "Resolve") := by
  decide

/-- C4 (amended): a successful `change_work_item_state` invocation with a cached
session issues exactly 3 HTTP calls — GET of the current item, action PATCH with
empty body, Commit PATCH with an empty field list, in that order — with the
1000 ms delay strictly between the second and third calls. -/
theorem c4_theorem (st : String) (env : StateEnv) (dbid ts : String)
    (hst : st ≠ "")
    (hg : httpOk env.getStatus = true) (ha : httpOk env.actionStatus = true)
    (hcm : httpOk env.commitStatus = true) :
    (change_work_item_state st env dbid ts).2.1 =
      [Ev.getRecord, Ev.actionPatch ts, Ev.delayMs 1000, Ev.commitPatch []] ∧
    ((change_work_item_state st env dbid ts).2.1.countP isHttpEv = 3) ∧
    (change_work_item_state st env dbid ts).2.2 =
      ToolResult.content (stateSuccessText dbid ts) := by
  have hsess : ensureSession st env.cookieResp = (st, [], true) := by
    simp [ensureSession, hst]
  have htr : change_work_item_state st env dbid ts =
      (st, [Ev.getRecord, Ev.actionPatch ts, Ev.delayMs 1000, Ev.commitPatch []],
        ToolResult.content (stateSuccessText dbid ts)) := by
    simp [change_work_item_state, hsess, hg, ha, hcm]
  rw [htr]
  exact ⟨rfl, rfl, rfl⟩

/-- C4 (witness): the amended statement at a cached session and an all-OK
environment. -/
theorem c4_witness :
    (change_work_item_state "c0" ⟨some "c", 200, "", 204, "", 200, ""⟩ "42" "Resolve").2.1 =
      [Ev.getRecord, Ev.actionPatch "Resolve", Ev.delayMs 1000, Ev.commitPatch []] ∧
    ((change_work_item_state "c0" ⟨some "c", 200, "", 204, "", 200, ""⟩ "42"
      "Resolve").2.1.countP isHttpEv = 3) ∧
    (change_work_item_state "c0" ⟨some "c", 200, "", 204, "", 200, ""⟩ "42" "Resolve").2.2 =
      ToolResult.content (stateSuccessText "42" "Resolve") :=
  c4_theorem "c0" ⟨some "c", 200, "", 204, "", 200, ""⟩ "42" "Resolve" (by decide)
    (by decide) (by decide) (by decide)

theorem commitFailMsg_400 (body : String) :
    commitFailMsg 400 body =
      "Commit request failed with " ++ ("status 400" ++ (": " ++ body)) := rfl

theorem commitFailMsg_422 (body : String) :
    commitFailMsg 422 body =
      "Commit request failed with " ++ ("status 422" ++ (": " ++ body)) := rfl

theorem containsB_commitFailMsg_400 (body : String) :
    containsB (commitFailMsg 400 body) "status 400" = true := by
  rw [commitFailMsg_400]
  exact containsB_split _ _ _

theorem containsB_commitFailMsg_422 (body : String) :
    containsB (commitFailMsg 422 body) "status 422" = true := by
  rw [commitFailMsg_422]
  exact containsB_split _ _ _

theorem stateTransitionText_split_ts (dbid ts m : String) :
    stateTransitionText dbid ts m =
      ("State transition error: The transition from current state to " ++ sq) ++
        (ts ++ (sq ++ (" may not be valid for work item " ++ (dbid ++ (". Error: " ++ m))))) := by
  simp only [stateTransitionText, string_append_assoc]

theorem stateTransitionText_split_dbid (dbid ts m : String) :
    stateTransitionText dbid ts m =
      ("State transition error: The transition from current state to " ++
          (sq ++ (ts ++ (sq ++ " may not be valid for work item ")))) ++
        (dbid ++ (". Error: " ++ m)) := by
  simp only [stateTransitionText, string_append_assoc]

theorem stateTransitionText_ne_generic (a b m m' : String) :
    stateTransitionText a b m ≠ stateGenericText m' := by
  intro h
  have h1 : (stateTransitionText a b m).data.head? = some 'S' := rfl
  rw [h] at h1
  have h2 : (stateGenericText m').data.head? = some 'E' := rfl
  rw [h1] at h2
  exact absurd h2 (by decide)

theorem moveFailMsg_400 (body : String) :
    moveFailMsg 400 body =
      "Movement request failed with " ++ ("status 400" ++ (": " ++ body)) := rfl

theorem moveFailMsg_422 (body : String) :
    moveFailMsg 422 body =
      "Movement request failed with " ++ ("status 422" ++ (": " ++ body)) := rfl

theorem containsB_moveFailMsg_400 (body : String) :
    containsB (moveFailMsg 400 body) "status 400" = true := by
  rw [moveFailMsg_400]
  exact containsB_split _ _ _

theorem containsB_moveFailMsg_422 (body : String) :
    containsB (moveFailMsg 422 body) "status 422" = true := by
  rw [moveFailMsg_422]
  exact containsB_split _ _ _

/-- C8 (confirmed): when the action step or the Commit step of
`change_work_item_state` answers HTTP 400 or 422, the rendered error is the
invalid-state-transition message built from the thrown step message; for every
such message it contains both the supplied dbid and the supplied target state
and is never equal to the generic error message. -/
theorem c8_theorem (st : String) (env : StateEnv) (dbid ts : String)
    (hsess : (ensureSession st env.cookieResp).2.2 = true)
    (hg : httpOk env.getStatus = true) :
    ((env.actionStatus = 400 ∨ env.actionStatus = 422) →
      (change_work_item_state st env dbid ts).2.2 =
        ToolResult.content
          (stateTransitionText dbid ts (moveFailMsg env.actionStatus env.actionBody))) ∧
    (httpOk env.actionStatus = true →
      (env.commitStatus = 400 ∨ env.commitStatus = 422) →
      (change_work_item_state st env dbid ts).2.2 =
        ToolResult.content
          (stateTransitionText dbid ts (commitFailMsg env.commitStatus env.commitBody))) ∧
    (∀ m, containsB (stateTransitionText dbid ts m) dbid = true ∧
      containsB (stateTransitionText dbid ts m) ts = true ∧
      ∀ m2, stateTransitionText dbid ts m ≠ stateGenericText m2) := by
  rcases h : ensureSession st env.cookieResp with ⟨st1, evs, ok⟩
  rw [h] at hsess
  cases ok
  · simp at hsess
  · refine ⟨?_, ?_, ?_⟩
    · rintro (h4 | h4)
      · have haf : httpOk env.actionStatus = false := by rw [h4]; decide
        have hc1 : containsB (moveFailMsg env.actionStatus env.actionBody)
            "status 400" = true := by
          rw [h4]; exact containsB_moveFailMsg_400 _
        simp [change_work_item_state, h, hg, haf, stateCatch, hc1]
      · have haf : httpOk env.actionStatus = false := by rw [h4]; decide
        have hc1 : containsB (moveFailMsg env.actionStatus env.actionBody)
            "status 422" = true := by
          rw [h4]; exact containsB_moveFailMsg_422 _
        simp [change_work_item_state, h, hg, haf, stateCatch, hc1]
    · rintro ha (h4 | h4)
      · have hcf : httpOk env.commitStatus = false := by rw [h4]; decide
        have hc1 : containsB (commitFailMsg env.commitStatus env.commitBody)
            "status 400" = true := by
          rw [h4]; exact containsB_commitFailMsg_400 _
        simp [change_work_item_state, h, hg, ha, hcf, stateCatch, hc1]
      · have hcf : httpOk env.commitStatus = false := by rw [h4]; decide
        have hc1 : containsB (commitFailMsg env.commitStatus env.commitBody)
            "status 422" = true := by
          rw [h4]; exact containsB_commitFailMsg_422 _
        simp [change_work_item_state, h, hg, ha, hcf, stateCatch, hc1]
    · intro m
      refine ⟨?_, ?_, fun m2 => stateTransitionText_ne_generic _ _ _ _⟩
      · rw [stateTransitionText_split_dbid]
        exact containsB_split _ _ _
      · rw [stateTransitionText_split_ts]
        exact containsB_split _ _ _

/-- C8 (witness): the theorem at the claim's example, item 42 moved to Resolve,
exercised once with a 422 answer at the action step and once with a 422 answer
at the Commit step. -/
theorem c8_witness :
    (change_work_item_state "c0" ⟨some "c", 200, "", 422, "boom", 200, ""⟩ "42"
        "Resolve").2.2 =
      ToolResult.content
        (stateTransitionText "42" "Resolve" (moveFailMsg 422 "boom")) ∧
    (change_work_item_state "c0" ⟨some "c", 200, "", 200, "", 422, "boom"⟩ "42"
        "Resolve").2.2 =
      ToolResult.content
        (stateTransitionText "42" "Resolve" (commitFailMsg 422 "boom")) ∧
    containsB (stateTransitionText "42" "Resolve" (commitFailMsg 422 "boom")) "42" = true ∧
    containsB (stateTransitionText "42" "Resolve" (commitFailMsg 422 "boom")) "Resolve" =
      true ∧
    stateTransitionText "42" "Resolve" (commitFailMsg 422 "boom") ≠
      stateGenericText (commitFailMsg 422 "boom") := by
  have h1 := c8_theorem "c0" ⟨some "c", 200, "", 422, "boom", 200, ""⟩ "42" "Resolve"
    (by decide) (by decide)
  have h2 := c8_theorem "c0" ⟨some "c", 200, "", 200, "", 422, "boom"⟩ "42" "Resolve"
    (by decide) (by decide)
  refine ⟨h1.1 (Or.inr rfl), h2.2.1 (by decide) (Or.inr rfl), ?_, ?_, ?_⟩
  · exact (h2.2.2 (commitFailMsg 422 "boom")).1
  · exact (h2.2.2 (commitFailMsg 422 "boom")).2.1
  · exact (h2.2.2 (commitFailMsg 422 "boom")).2.2 (commitFailMsg 422 "boom")

theorem releaseEditLoop_noCreate (env : RelEnv) (fs : List Field) (i : Nat) :
    createCount (releaseEditLoop env fs i).1 = 0 := by
  induction fs generalizing i with
  | nil => rfl
  | cons f rest ih =>
    unfold releaseEditLoop
    split
    · simp only [createCount, List.countP_cons, isCreateEv]
      have h0 : List.countP isCreateEv (releaseEditLoop env rest (i + 1)).1 = 0 := ih (i + 1)
      simp [h0]
    · rfl

/-- C6 (counterexample): a `create_or_update_sprint` invocation without a dbid
and without a name issues no empty-field create POST at all (the validation
error precedes it), so not every no-dbid invocation performs exactly one such
POST. -/
theorem c6_counterexample :
    createCount (create_or_update_sprint "c0"
        ⟨some "c", 200, "", "7", 200, "", 200, "", "d"⟩ none none none none).2.1 = 0 ∧
      isContentResult (create_or_update_sprint "c0"
        ⟨some "c", 200, "", "7", 200, "", 200, "", "d"⟩ none none none none).2.2 = true := by
  decide

/-- C6 (amended): on every `create_or_update_sprint` or `create_or_update_release`
invocation without a truthy dbid whose session is available and whose required
Name is supplied, exactly one empty-field create POST is issued, and it precedes
every Edit or Commit request carrying a field value (the only earlier event is
the session bootstrap). -/
theorem c6_theorem :
    (∀ (st : String) (env : SprintEnv) (d n s e : Option String),
      (ensureSession st env.cookieResp).2.2 = true →
      truthyOpt d = false →
      truthyOpt n = true →
      ∃ post, (create_or_update_sprint st env d n s e).2.1 =
          (ensureSession st env.cookieResp).2.1 ++ (Ev.createPost [] :: post) ∧
        createCount post = 0) ∧
    (∀ (st : String) (env : RelEnv) (d : Option String) (fs : List Field),
      (ensureSession st env.cookieResp).2.2 = true →
      truthyOpt d = false →
      fs.any (fun f => f.name = "Name") = true →
      ∃ post, (create_or_update_release st env d fs).2.1 =
          (ensureSession st env.cookieResp).2.1 ++ (Ev.createPost [] :: post) ∧
        createCount post = 0) := by
  constructor
  · intro st env d n s e hsess hd hn
    rcases h : ensureSession st env.cookieResp with ⟨st1, evs, ok⟩
    rw [h] at hsess
    cases ok
    · simp at hsess
    · cases hcs : httpOk env.createStatus
      · refine ⟨[], ?_, rfl⟩
        simp [create_or_update_sprint, h, hd, hn, hcs]
      · cases hes : httpOk env.editStatus
        · refine ⟨[Ev.editPatch (sprintEditFields n s e)], ?_, rfl⟩
          simp [create_or_update_sprint, sprintRest, h, hd, hn, hcs, hes]
        · refine ⟨[Ev.editPatch (sprintEditFields n s e),
            Ev.commitPatch (sprintCommitFields n s e)], ?_, rfl⟩
          cases hcm : httpOk env.commitStatus <;>
            simp [create_or_update_sprint, sprintRest, h, hd, hn, hcs, hes, hcm]
  · intro st env d fs hsess hd hname
    rcases h : ensureSession st env.cookieResp with ⟨st1, evs, ok⟩
    rw [h] at hsess
    cases ok
    · simp at hsess
    · have hnc : createCount (releaseEditLoop env fs 0).1 = 0 :=
        releaseEditLoop_noCreate env fs 0
      cases hcs : httpOk env.createStatus
      · refine ⟨[], ?_, rfl⟩
        simp [create_or_update_release, h, hd, hname, hcs]
      · rcases hl : releaseEditLoop env fs 0 with ⟨levs, err⟩
        rw [hl] at hnc
        cases err with
        | none =>
          refine ⟨levs ++ [Ev.commitPatch (fs.map buildReleaseCommitField)], ?_, ?_⟩
          · cases hcm : httpOk env.commitStatus <;>
              simp [create_or_update_release, releaseRest, h, hd, hname, hcs, hl, hcm]
          · have h0 : List.countP isCreateEv levs = 0 := hnc
            simp [createCount, List.countP_append, List.countP_cons, isCreateEv, h0]
        | some m =>
          refine ⟨levs, ?_, hnc⟩
          simp [create_or_update_release, releaseRest, h, hd, hname, hcs, hl]

/-- C6 (witness): the amended statement for a sprint creation with a cached
session and a supplied name. -/
theorem c6_witness :
    ∃ post, (create_or_update_sprint "c0" ⟨some "c", 200, "", "7", 200, "", 200, "", "d"⟩
        none (some "S1") none none).2.1 =
        (ensureSession "c0" (some "c")).2.1 ++ (Ev.createPost [] :: post) ∧
      createCount post = 0 :=
  c6_theorem.1 "c0" ⟨some "c", 200, "", "7", 200, "", 200, "", "d"⟩ none (some "S1")
    none none (by decide) rfl (by decide)

end Plan
